import Mathlib

/-!
Shallow embedding of the EIS API client (`src/client.ts`): the configuration
holder (`EisClient` constructor, `getConfig`), the request executor
(`makeRequest`) with its error-classification policy, and the four public
operations (`getApiStatus`, `calculateSimulation`, `calculateQuenching`,
`getAgingTable`).

Modelling conventions:
* JSON payloads are modelled by the inductive `Json`; a parsed response body
  is a `Json` value and fields are read with `Json.getField` (returning
  `none` for an absent field, JS `undefined`).
* JavaScript truthiness of values and of optional string fields is modelled
  by `Json.truthy` / `strOptTruthy` / `jsOptTruthy`.
* The structured fields of an error body (`error`, `code`, `timestamp`,
  `path`) are strings per the TypeScript `as ApiError` cast, so the
  truthiness guard `errorData?.code && ...` is modelled by `jsonFieldStr`,
  which yields the field exactly when it is a non-empty string.
* A thrown JavaScript value is a `JsValue`: a plain `Error` (name, message),
  a `TypeError`, an `EisApiError` instance, or a non-`Error` value.
* `makeRequest` is a pure function of the configured timeout and of the
  outcome of the single `fetch` call (`FetchOutcome`): either `fetch`
  rejects with a thrown value, or a response arrives with a status, status
  text, content-type header and a `json()` result (`Except` because
  `response.json()` can throw a parse error).
* Machine integers: the HTTP status and timeout are `Nat`s; no arithmetic
  overflows are involved.
-/

/-- JSON values, the model of parsed response bodies and payloads. -/
inductive Json where
  | null : Json
  | bool (b : Bool) : Json
  | num (n : Int) : Json
  | str (s : String) : Json
  | arr (elems : List Json) : Json
  | obj (fields : List (String × Json)) : Json

/-- Field lookup on a JSON value: `j[key]` in JavaScript. Returns `none`
(JS `undefined`) when the value is not an object or the key is absent. -/
def Json.getField : Json → String → Option Json
  | .obj fields, key => lookupField fields key
  | _, _ => none
where
  lookupField : List (String × Json) → String → Option Json
    | [], _ => none
    | (k, v) :: rest, key => if k = key then some v else lookupField rest key

/-- JavaScript truthiness of a JSON value. -/
def Json.truthy : Json → Bool
  | .null => false
  | .bool b => b
  | .num n => n != 0
  | .str s => !s.isEmpty
  | .arr _ => true
  | .obj _ => true

/-- Truthiness of an optional string (JS: `undefined`/`null`/`""` are falsy). -/
def strOptTruthy : Option String → Bool
  | none => false
  | some s => !s.isEmpty

/-- Truthiness of an optional JSON value (`none` models `null`/`undefined`). -/
def jsOptTruthy : Option Json → Bool
  | none => false
  | some j => j.truthy

/-- Truthiness of the field `key` of `j` (`j[key] ? ... : ...`). -/
def jsonFieldTruthy (j : Json) (key : String) : Bool :=
  jsOptTruthy (j.getField key)

/-- The field `key` of `j` when it is a truthy string, `none` otherwise.
This models `j[key] || fallback` and `...(j?.[key] && { key: j[key] })` for
the string-typed fields of `ApiError` / `ApiResponse`. -/
def jsonFieldStr (j : Json) (key : String) : Option String :=
  match j.getField key with
  | some (Json.str s) => if s.isEmpty then none else some s
  | _ => none

/-- `sub.isPrefixOf`-based substring search on character lists. -/
def listContainsSub (pat : List Char) : List Char → Bool
  | [] => pat.isEmpty
  | c :: rest => pat.isPrefixOf (c :: rest) || listContainsSub pat rest

/-- JS `s.includes(pat)`. -/
def strContains (s pat : String) : Bool :=
  listContainsSub pat.toList s.toList

/-- JS `s.startsWith(pat)`. -/
def strStartsWith (s pat : String) : Bool :=
  pat.toList.isPrefixOf s.toList

/-- `EisApiError` (client.ts:24-55): message plus optional structured
fields. A field left `undefined` by the constructor is `none`. -/
structure EisApiError where
  message : String
  code : Option String := none
  timestamp : Option String := none
  path : Option String := none
  statusCode : Option Nat := none
deriving DecidableEq, Repr

/-- `EisClientConfig` as supplied by the caller: `none` models an absent
(undefined) field. -/
structure EisClientConfig where
  customerName : Option String := none
  apiSecret : Option String := none
  baseUrl : Option String := none
  timeout : Option Nat := none
deriving DecidableEq, Repr

/-- `InternalConfig` (client.ts:60-65): all fields resolved. -/
structure InternalConfig where
  customerName : String
  apiSecret : String
  baseUrl : String
  timeout : Nat
deriving DecidableEq, Repr

/-- The `EisClient` constructor (client.ts:78-92): validates the required
credentials (JS truthiness: absent or empty fails) and resolves defaults
with `??` (nullish coalescing, modelled by `Option.getD`). `Except String`
models the synchronously raised `Error` with its message. -/
def makeClient (config : EisClientConfig) : Except String InternalConfig :=
  if !strOptTruthy config.customerName then
    .error "customerName is required"
  else if !strOptTruthy config.apiSecret then
    .error "apiSecret is required"
  else
    .ok {
      customerName := config.customerName.getD ""
      apiSecret := config.apiSecret.getD ""
      baseUrl := config.baseUrl.getD "https://api.extrusionsim.com"
      timeout := config.timeout.getD 30000
    }

/-- The shape returned by `getConfig()` (client.ts:417-426). -/
structure PublicConfig where
  customerName : String
  baseUrl : String
  timeout : Nat
  apiSecret : String
deriving DecidableEq, Repr

/-- `EisClient.getConfig` (client.ts:420-425): copies the resolved fields
and replaces the secret with the literal `"[REDACTED]"`. -/
def getConfig (c : InternalConfig) : PublicConfig :=
  { customerName := c.customerName
    baseUrl := c.baseUrl
    timeout := c.timeout
    apiSecret := "[REDACTED]" }

/-- A thrown JavaScript value as seen by a `catch` clause:
* `error name message`: a plain `Error` instance with the given `name`
  (a timeout abort arrives as `error "AbortError" _` — the `DOMException`
  raised when the armed timer calls `controller.abort()`);
* `typeError message`: a `TypeError` instance (its `name` is `"TypeError"`;
  `fetch` rejects with one on transport/network failure);
* `eisError e`: an `EisApiError` instance (its `name` is `"EisApiError"`);
* `nonError`: a thrown value that is not an `Error` instance. -/
inductive JsValue where
  | error (name : String) (message : String) : JsValue
  | typeError (message : String) : JsValue
  | eisError (e : EisApiError) : JsValue
  | nonError : JsValue
deriving DecidableEq, Repr

/-- An HTTP response as observed by `makeRequest`: status, status text, the
`content-type` header (`none` when absent) and the result of
`response.json()` (`Except.error msg` models the parse throwing an `Error`
with message `msg`; the body is read at most once on every path). -/
structure HttpResponse where
  status : Nat
  statusText : String
  contentType : Option String
  body : Except String Json

/-- The outcome of the single `fetch` call made by `makeRequest`: either
`fetch` rejects with a thrown value (transport failure, abort, ...) or it
resolves to a response. -/
inductive FetchOutcome where
  | throws (err : JsValue) : FetchOutcome
  | response (r : HttpResponse) : FetchOutcome

/-- `response.ok`: status in the 2xx range. -/
def responseOk (status : Nat) : Bool :=
  200 ≤ status && status ≤ 299

/-- The `catch` clause of `makeRequest` (client.ts:181-203): classify the
caught value into the `EisApiError` that is (re-)thrown.
* `error instanceof Error && error.name === 'AbortError'` → timeout message
  with the configured timeout substituted;
* `error instanceof TypeError && error.message.includes('fetch')` → the
  fixed network-error message;
* `error instanceof EisApiError` → rethrown unchanged;
* any other `Error` → wrapped with its own message;
* a non-`Error` value → wrapped with `"Unknown error occurred"`. -/
def classifyCaught (timeout : Nat) (err : JsValue) : EisApiError :=
  match err with
  | .error name msg =>
      if name = "AbortError" then
        { message := "Request timeout after " ++ toString timeout ++ "ms" }
      else
        { message := msg }
  | .typeError msg =>
      if strContains msg "fetch" then
        { message := "Network error: Unable to connect to API" }
      else
        { message := msg }
  | .eisError e => e
  | .nonError => { message := "Unknown error occurred" }

/-- The inner `try`/`catch` of the non-2xx branch (client.ts:139-147):
`errorData` is the parsed JSON error body, obtained only when the
content-type header includes `"application/json"` and `response.json()`
succeeds; on parse failure (or a non-JSON/absent content type) it stays
`undefined` and the default message is used. -/
def parsedErrorBody (r : HttpResponse) : Option Json :=
  match r.contentType with
  | some ct =>
      if strContains ct "application/json" then
        match r.body with
        | .ok j => some j
        | .error _ => none
      else none
  | none => none


/-- The body of the `try` block of `makeRequest` after `fetch` resolved to a
response (client.ts:135-180). `Except.error v` models `throw v`; the success
value is `some payload`, or `none` when `result.data` was absent
(`undefined === null` is false, so an absent field is returned as-is).

Non-2xx branch: the JSON error body is parsed only when the content-type
header includes `"application/json"`; a parse failure is swallowed and the
fallback message `"HTTP {status}: {statusText}"` is used; the structured
fields are spread in only when truthy. 2xx branch: `response.json()` may
throw (propagating to the catch clause as a plain `Error`); `success: false`
raises with the body's error or `"Unknown API error"`, forcing
`code = "VALIDATION_ERROR"` when the message starts with
`"Validation error"`; a `null` payload raises `"API returned null data"`. -/
def makeRequestTry (r : HttpResponse) : Except JsValue (Option Json) :=
  if !responseOk r.status then
    let fallback := "HTTP " ++ toString r.status ++ ": " ++ r.statusText
    let errorData : Option Json := parsedErrorBody r
    let errorMessage :=
      match errorData with
      | some j => (jsonFieldStr j "error").getD fallback
      | none => fallback
    .error (.eisError {
      message := errorMessage
      code := errorData.bind (fun j => jsonFieldStr j "code")
      timestamp := errorData.bind (fun j => jsonFieldStr j "timestamp")
      path := errorData.bind (fun j => jsonFieldStr j "path")
      statusCode := some r.status })
  else
    match r.body with
    | .error parseMsg => .error (.error "SyntaxError" parseMsg)
    | .ok result =>
      if !jsonFieldTruthy result "success" then
        let errorMessage := (jsonFieldStr result "error").getD "Unknown API error"
        if strStartsWith errorMessage "Validation error" then
          .error (.eisError {
            message := errorMessage
            code := some "VALIDATION_ERROR"
            statusCode := some r.status })
        else
          .error (.eisError {
            message := errorMessage
            statusCode := some r.status })
      else
        match result.getField "data" with
        | some Json.null => .error (.eisError { message := "API returned null data" })
        | some d => .ok (some d)
        | none => .ok none

/-- `makeRequest` (client.ts:101-204) as a function of the configured
timeout and the fetch outcome. Every throw from inside the `try` block —
including a rejection of the `fetch` call itself — lands in the same `catch`
clause, so the raised value is always `classifyCaught` of what was thrown.
The error is kept as the thrown `JsValue` so that the callers' own
`error instanceof Error` test can be modelled faithfully. -/
def makeRequestRun (timeout : Nat) (outcome : FetchOutcome) :
    Except JsValue (Option Json) :=
  match outcome with
  | .throws err => .error (.eisError (classifyCaught timeout err))
  | .response r =>
      match makeRequestTry r with
      | .ok d => .ok d
      | .error thrown => .error (.eisError (classifyCaught timeout thrown))

/-- The `data` field of a public result envelope: `null`, `undefined`, or a
payload value. -/
inductive EnvData where
  | null : EnvData
  | undef : EnvData
  | payload (j : Json) : EnvData

/-- The result envelope `ApiResponse<T>` returned by every public
operation: `{data, success, error}` with `error = none` modelling
`error: null`. -/
structure ApiResult where
  data : EnvData
  success : Bool
  error : Option String

/-- The catch clause of the public operations (e.g. client.ts:319-325):
`error instanceof Error ? error.message : 'Unknown error'`. -/
def jsErrMessage : JsValue → String
  | .error _ msg => msg
  | .typeError msg => msg
  | .eisError e => e.message
  | .nonError => "Unknown error"

/-- Wrap the executor's outcome into the envelope, as every public
operation's `try`/`catch` does (client.ts:308-325 and analogues). -/
def wrapResult (res : Except JsValue (Option Json)) : ApiResult :=
  match res with
  | .ok (some d) => { data := .payload d, success := true, error := none }
  | .ok none => { data := .undef, success := true, error := none }
  | .error v => { data := .null, success := false, error := some (jsErrMessage v) }

/-- `EisClient.getApiStatus` (client.ts:392-410): GET `/status`, wrap. -/
def getApiStatus (timeout : Nat) (outcome : FetchOutcome) : ApiResult :=
  wrapResult (makeRequestRun timeout outcome)

/-- `EisClient.getAgingTable` (client.ts:359-380): GET `/aging-table`, wrap. -/
def getAgingTable (timeout : Nat) (outcome : FetchOutcome) : ApiResult :=
  wrapResult (makeRequestRun timeout outcome)

/-- `EisClient.calculateSimulation` (client.ts:297-326): short-circuit on a
falsy `inputData` (`none` models `null`/`undefined`) before any request,
otherwise POST `/simulate` and wrap the outcome. -/
def calculateSimulation (timeout : Nat) (inputData : Option Json)
    (outcome : FetchOutcome) : ApiResult :=
  if !jsOptTruthy inputData then
    { data := .null, success := false, error := some "inputData is required" }
  else
    wrapResult (makeRequestRun timeout outcome)

/-- `EisClient.calculateQuenching` (client.ts:328-357): identical wrapping
with POST `/quenching`. -/
def calculateQuenching (timeout : Nat) (inputData : Option Json)
    (outcome : FetchOutcome) : ApiResult :=
  if !jsOptTruthy inputData then
    { data := .null, success := false, error := some "inputData is required" }
  else
    wrapResult (makeRequestRun timeout outcome)

/-- The two legal shapes of the public result envelope: the success variant
`{data: <payload>, success: true, error: null}` or the failure variant
`{data: null, success: false, error: <message>}`. -/
def envelopeShape (res : ApiResult) : Prop :=
  (res.success = true ∧ res.error = none) ∨
  (res.data = EnvData.null ∧ res.success = false ∧ ∃ m, res.error = some m)

theorem envelopeShape_wrapResult (res : Except JsValue (Option Json)) :
    envelopeShape (wrapResult res) := by
  cases res with
  | ok d => cases d <;> simp [wrapResult, envelopeShape]
  | error v => simp [wrapResult, envelopeShape]

theorem makeClient_ok_eq {config : EisClientConfig} {i : InternalConfig}
    (h : makeClient config = Except.ok i) :
    i = { customerName := config.customerName.getD ""
          apiSecret := config.apiSecret.getD ""
          baseUrl := config.baseUrl.getD "https://api.extrusionsim.com"
          timeout := config.timeout.getD 30000 } := by
  unfold makeClient at h
  split at h
  · cases h
  · split at h
    · cases h
    · injection h with h
      exact h.symm

/-- C1: every invocation of the four public operations, on every outcome of
the underlying request, returns one of the two envelope shapes instead of
propagating an exception; on a successful request the success envelope wraps
the payload with `success: true` and `error: null`, and on a raised error the
failure envelope is `{data: null, success: false, error: <message>}`, keeping
only the message string of the raised `EisApiError` (its `code`,
`statusCode`, `timestamp`, `path` fields do not reach the envelope). -/
theorem public_ops_never_throw (timeout : Nat) (inp : Option Json)
    (outcome : FetchOutcome) :
    envelopeShape (getApiStatus timeout outcome) ∧
    envelopeShape (getAgingTable timeout outcome) ∧
    envelopeShape (calculateSimulation timeout inp outcome) ∧
    envelopeShape (calculateQuenching timeout inp outcome) ∧
    (∀ d, makeRequestRun timeout outcome = Except.ok d →
      getApiStatus timeout outcome = wrapResult (Except.ok d) ∧
      getAgingTable timeout outcome = wrapResult (Except.ok d) ∧
      (jsOptTruthy inp = true →
        calculateSimulation timeout inp outcome = wrapResult (Except.ok d) ∧
        calculateQuenching timeout inp outcome = wrapResult (Except.ok d)) ∧
      (wrapResult (Except.ok d)).success = true ∧
      (wrapResult (Except.ok d)).error = none) ∧
    (∀ e, makeRequestRun timeout outcome = Except.error (JsValue.eisError e) →
      getApiStatus timeout outcome = ⟨EnvData.null, false, some e.message⟩ ∧
      getAgingTable timeout outcome = ⟨EnvData.null, false, some e.message⟩ ∧
      (jsOptTruthy inp = true →
        calculateSimulation timeout inp outcome =
          ⟨EnvData.null, false, some e.message⟩ ∧
        calculateQuenching timeout inp outcome =
          ⟨EnvData.null, false, some e.message⟩)) := by
  refine ⟨envelopeShape_wrapResult _, envelopeShape_wrapResult _, ?_, ?_, ?_, ?_⟩
  · cases h : jsOptTruthy inp <;> simp [calculateSimulation, h]
    · simp [envelopeShape]
    · exact envelopeShape_wrapResult _
  · cases h : jsOptTruthy inp <;> simp [calculateQuenching, h]
    · simp [envelopeShape]
    · exact envelopeShape_wrapResult _
  · intro d hd
    refine ⟨?_, ?_, ?_, ?_, ?_⟩
    · simp [getApiStatus, hd]
    · simp [getAgingTable, hd]
    · intro hinp
      constructor <;> simp [calculateSimulation, calculateQuenching, hinp, hd]
    · rcases d with _ | j <;> simp [wrapResult]
    · rcases d with _ | j <;> simp [wrapResult]
  · intro e he
    refine ⟨?_, ?_, ?_⟩
    · simp [getApiStatus, he, wrapResult, jsErrMessage]
    · simp [getAgingTable, he, wrapResult, jsErrMessage]
    · intro hinp
      constructor <;>
        simp [calculateSimulation, calculateQuenching, hinp, he, wrapResult,
          jsErrMessage]

/-- Witness for C1: a concrete failing request (a thrown non-`Error` value)
produces the failure envelope with the classified message on each operation. -/
theorem public_ops_never_throw_witness :
    getApiStatus 1 (.throws .nonError) =
      ⟨EnvData.null, false, some "Unknown error occurred"⟩ ∧
    getAgingTable 1 (.throws .nonError) =
      ⟨EnvData.null, false, some "Unknown error occurred"⟩ ∧
    calculateSimulation 1 (some (Json.obj [])) (.throws .nonError) =
      ⟨EnvData.null, false, some "Unknown error occurred"⟩ := by
  obtain ⟨hs, ha, hc⟩ :=
    (public_ops_never_throw 1 (some (Json.obj [])) (.throws .nonError)).2.2.2.2.2
      { message := "Unknown error occurred" } rfl
  exact ⟨hs, ha, (hc rfl).1⟩

/-- C2: for every response with a status outside the 2xx range, `makeRequest`
raises an `EisApiError` with `statusCode = response.status`; its message is
the parsed JSON error body field `error` when the response declares a JSON
content type, the parse succeeds and that field is a truthy string, and
otherwise the fallback `"HTTP {status}: {statusText}"`; `code`, `timestamp`
and `path` are propagated from the parsed body exactly when present as
truthy strings, and are omitted when the body could not be parsed, the
content type is not JSON, or the content-type header is absent. -/
theorem non_2xx_classification (timeout : Nat) (r : HttpResponse)
    (hok : responseOk r.status = false) :
    ∃ e, makeRequestRun timeout (.response r) = Except.error (JsValue.eisError e) ∧
      e.statusCode = some r.status ∧
      (∀ j, parsedErrorBody r = some j →
        (∀ m, jsonFieldStr j "error" = some m → e.message = m) ∧
        (jsonFieldStr j "error" = none →
          e.message = "HTTP " ++ toString r.status ++ ": " ++ r.statusText) ∧
        e.code = jsonFieldStr j "code" ∧
        e.timestamp = jsonFieldStr j "timestamp" ∧
        e.path = jsonFieldStr j "path") ∧
      (parsedErrorBody r = none →
        e.message = "HTTP " ++ toString r.status ++ ": " ++ r.statusText ∧
        e.code = none ∧ e.timestamp = none ∧ e.path = none) ∧
      (r.contentType = none → parsedErrorBody r = none) ∧
      (∀ ct, r.contentType = some ct → strContains ct "application/json" = false →
        parsedErrorBody r = none) ∧
      (∀ msg, r.body = Except.error msg → parsedErrorBody r = none) := by
  have htry : makeRequestTry r = Except.error (JsValue.eisError
      { message :=
          match parsedErrorBody r with
          | some j => (jsonFieldStr j "error").getD
              ("HTTP " ++ toString r.status ++ ": " ++ r.statusText)
          | none => "HTTP " ++ toString r.status ++ ": " ++ r.statusText
        code := (parsedErrorBody r).bind (fun j => jsonFieldStr j "code")
        timestamp := (parsedErrorBody r).bind (fun j => jsonFieldStr j "timestamp")
        path := (parsedErrorBody r).bind (fun j => jsonFieldStr j "path")
        statusCode := some r.status }) := by
    unfold makeRequestTry
    rw [hok]
    rfl
  have hrun : makeRequestRun timeout (.response r) = Except.error (JsValue.eisError
      { message :=
          match parsedErrorBody r with
          | some j => (jsonFieldStr j "error").getD
              ("HTTP " ++ toString r.status ++ ": " ++ r.statusText)
          | none => "HTTP " ++ toString r.status ++ ": " ++ r.statusText
        code := (parsedErrorBody r).bind (fun j => jsonFieldStr j "code")
        timestamp := (parsedErrorBody r).bind (fun j => jsonFieldStr j "timestamp")
        path := (parsedErrorBody r).bind (fun j => jsonFieldStr j "path")
        statusCode := some r.status }) := by
    simp [makeRequestRun, htry, classifyCaught]
  refine ⟨_, hrun, rfl, ?_, ?_, ?_, ?_, ?_⟩
  · intro j hj
    rw [hj]
    refine ⟨?_, ?_, rfl, rfl, rfl⟩
    · intro m hm; simp [hm]
    · intro hm; simp [hm]
  · intro hnone
    rw [hnone]
    exact ⟨rfl, rfl, rfl, rfl⟩
  · intro hct; simp [parsedErrorBody, hct]
  · intro ct hct hjson; simp [parsedErrorBody, hct, hjson]
  · intro msg hmsg
    unfold parsedErrorBody
    cases hc : r.contentType with
    | none => rfl
    | some ct => simp [hmsg]

/-- Witness for C2: a 429 response with a JSON error body yields the body
message, the body code and `statusCode = 429`. -/
theorem non_2xx_classification_witness :
    ∃ e, makeRequestRun 30000 (.response
        ⟨429, "Too Many Requests", some "application/json",
         Except.ok (Json.obj [("error", Json.str "Rate limited"),
                              ("code", Json.str "RATE_LIMITED")])⟩) =
      Except.error (JsValue.eisError e) ∧
      e.statusCode = some 429 ∧ e.message = "Rate limited" ∧
      e.code = some "RATE_LIMITED" := by
  obtain ⟨e, h1, h2, h3, -⟩ := non_2xx_classification 30000
    ⟨429, "Too Many Requests", some "application/json",
     Except.ok (Json.obj [("error", Json.str "Rate limited"),
                          ("code", Json.str "RATE_LIMITED")])⟩ (by decide)
  obtain ⟨hmsg, -, hcode, -, -⟩ := h3 _ rfl
  exact ⟨e, h1, h2, hmsg _ rfl, hcode.trans rfl⟩

/-- C3: for every 2xx response whose decoded body carries `success: false`,
`makeRequest` raises an `EisApiError` whose message is the body field
`error` (or `"Unknown API error"` when that field is absent), whose `code`
is `"VALIDATION_ERROR"` exactly when the message starts with the literal
prefix `"Validation error"` (any `code` in the body is ignored), and whose
`statusCode` is the response status; the public failure envelope then
carries exactly the body error string as its message. -/
theorem api_level_failure_classification (timeout : Nat) (r : HttpResponse)
    (result : Json) (hok : responseOk r.status = true)
    (hbody : r.body = Except.ok result)
    (hfail : jsonFieldTruthy result "success" = false) :
    ∃ e, makeRequestRun timeout (.response r) = Except.error (JsValue.eisError e) ∧
      e.message = (jsonFieldStr result "error").getD "Unknown API error" ∧
      (e.code = some "VALIDATION_ERROR" ↔
        strStartsWith e.message "Validation error" = true) ∧
      e.statusCode = some r.status ∧
      (∀ m, jsonFieldStr result "error" = some m →
        getApiStatus timeout (.response r) = ⟨EnvData.null, false, some m⟩ ∧
        getAgingTable timeout (.response r) = ⟨EnvData.null, false, some m⟩ ∧
        (∀ inp : Option Json, jsOptTruthy inp = true →
          calculateSimulation timeout inp (.response r) =
            ⟨EnvData.null, false, some m⟩ ∧
          calculateQuenching timeout inp (.response r) =
            ⟨EnvData.null, false, some m⟩)) := by
  have htry : makeRequestTry r = Except.error (JsValue.eisError
      (if strStartsWith ((jsonFieldStr result "error").getD "Unknown API error")
          "Validation error" then
        { message := (jsonFieldStr result "error").getD "Unknown API error"
          code := some "VALIDATION_ERROR"
          statusCode := some r.status }
      else
        { message := (jsonFieldStr result "error").getD "Unknown API error"
          statusCode := some r.status })) := by
    unfold makeRequestTry
    rw [hok, hbody]
    simp only [Bool.not_true, Bool.false_eq_true, if_false, hfail, Bool.not_false,
      if_true]
    split <;> rfl
  have hrun : makeRequestRun timeout (.response r) = Except.error (JsValue.eisError
      (if strStartsWith ((jsonFieldStr result "error").getD "Unknown API error")
          "Validation error" then
        { message := (jsonFieldStr result "error").getD "Unknown API error"
          code := some "VALIDATION_ERROR"
          statusCode := some r.status }
      else
        { message := (jsonFieldStr result "error").getD "Unknown API error"
          statusCode := some r.status })) := by
    simp [makeRequestRun, htry, classifyCaught]
  refine ⟨_, hrun, ?_, ?_, ?_, ?_⟩
  · split <;> rfl
  · split <;> simp_all
  · split <;> rfl
  · intro m hm
    have hmsg : ((jsonFieldStr result "error").getD "Unknown API error") = m := by
      rw [hm]; rfl
    refine ⟨?_, ?_, ?_⟩
    · simp [getApiStatus, hrun, wrapResult, jsErrMessage]
      split <;> simp [hmsg]
    · simp [getAgingTable, hrun, wrapResult, jsErrMessage]
      split <;> simp [hmsg]
    · intro inp hinp
      constructor <;> simp [calculateSimulation, calculateQuenching, hinp, hrun,
        wrapResult, jsErrMessage] <;> split <;> simp [hmsg]

/-- Witness for C3: a 200 response whose body is
`{success: false, error: "Validation error: bad input"}` raises with the
body message, a forced `VALIDATION_ERROR` code, `statusCode = 200`, and the
envelope carries exactly that message. -/
theorem api_level_failure_classification_witness :
    ∃ e, makeRequestRun 30000 (.response
        ⟨200, "OK", some "application/json",
         Except.ok (Json.obj [("success", Json.bool false),
                              ("error", Json.str "Validation error: bad input")])⟩) =
      Except.error (JsValue.eisError e) ∧
      e.message = "Validation error: bad input" ∧
      e.code = some "VALIDATION_ERROR" ∧
      getApiStatus 30000 (.response
        ⟨200, "OK", some "application/json",
         Except.ok (Json.obj [("success", Json.bool false),
                              ("error", Json.str "Validation error: bad input")])⟩) =
        ⟨EnvData.null, false, some "Validation error: bad input"⟩ := by
  obtain ⟨e, h1, h2, h3, h4, h5⟩ := api_level_failure_classification 30000
    ⟨200, "OK", some "application/json",
     Except.ok (Json.obj [("success", Json.bool false),
                          ("error", Json.str "Validation error: bad input")])⟩
    (Json.obj [("success", Json.bool false),
               ("error", Json.str "Validation error: bad input")])
    (by decide) rfl (by decide)
  have hm : e.message = "Validation error: bad input" := h2
  refine ⟨e, h1, hm, h3.mpr ?_, (h5 _ rfl).1⟩
  rw [hm]
  decide

/-- C4: round-trip pass-through — a well-formed 2xx response with body
`{success: true, data: X, error: null}` and `X` non-null makes `makeRequest`
return exactly `X`, and every public operation return the success envelope
`{data: X, success: true, error: null}` with `X` unmodified. -/
theorem round_trip_passthrough (timeout : Nat) (X : Json) (r : HttpResponse)
    (hX : X ≠ Json.null) (hok : responseOk r.status = true)
    (hbody : r.body = Except.ok
      (Json.obj [("success", Json.bool true), ("data", X), ("error", Json.null)])) :
    makeRequestRun timeout (.response r) = Except.ok (some X) ∧
    getApiStatus timeout (.response r) = ⟨EnvData.payload X, true, none⟩ ∧
    getAgingTable timeout (.response r) = ⟨EnvData.payload X, true, none⟩ ∧
    (∀ inp : Option Json, jsOptTruthy inp = true →
      calculateSimulation timeout inp (.response r) =
        ⟨EnvData.payload X, true, none⟩ ∧
      calculateQuenching timeout inp (.response r) =
        ⟨EnvData.payload X, true, none⟩) := by
  have h1 : makeRequestTry r = Except.ok (some X) := by
    unfold makeRequestTry
    rw [hok, hbody]
    cases X <;> simp_all [jsonFieldTruthy, Json.getField, Json.getField.lookupField,
      jsOptTruthy, Json.truthy]
  have h2 : makeRequestRun timeout (.response r) = Except.ok (some X) := by
    simp [makeRequestRun, h1]
  refine ⟨h2, ?_, ?_, ?_⟩
  · simp [getApiStatus, wrapResult, h2]
  · simp [getAgingTable, wrapResult, h2]
  · intro inp hinp
    constructor <;> simp [calculateSimulation, calculateQuenching, hinp,
      wrapResult, h2]

/-- Witness for C4: a concrete numeric payload is passed through unchanged. -/
theorem round_trip_passthrough_witness :
    makeRequestRun 30000 (.response
      ⟨200, "OK", some "application/json",
       Except.ok (Json.obj [("success", Json.bool true), ("data", Json.num 7),
                            ("error", Json.null)])⟩) =
      Except.ok (some (Json.num 7)) ∧
    calculateSimulation 30000 (some (Json.obj [])) (.response
      ⟨200, "OK", some "application/json",
       Except.ok (Json.obj [("success", Json.bool true), ("data", Json.num 7),
                            ("error", Json.null)])⟩) =
      ⟨EnvData.payload (Json.num 7), true, none⟩ := by
  obtain ⟨h1, h2, h3, h4⟩ := round_trip_passthrough 30000 (Json.num 7)
    ⟨200, "OK", some "application/json",
     Except.ok (Json.obj [("success", Json.bool true), ("data", Json.num 7),
                          ("error", Json.null)])⟩
    (by simp) (by decide) rfl
  exact ⟨h1, (h4 (some (Json.obj [])) rfl).1⟩

/-- C5: `calculateSimulation` and `calculateQuenching` on an absent input
(`none`, modelling JS `null`/`undefined`) return the failure envelope
`{data: null, success: false, error: "inputData is required"}`; the result
does not depend on the request outcome or the configured timeout, so no
request is issued. -/
theorem missing_input_short_circuit (timeout : Nat) (outcome : FetchOutcome) :
    calculateSimulation timeout none outcome =
      ⟨EnvData.null, false, some "inputData is required"⟩ ∧
    calculateQuenching timeout none outcome =
      ⟨EnvData.null, false, some "inputData is required"⟩ ∧
    (∀ (t1 t2 : Nat) (o1 o2 : FetchOutcome),
      calculateSimulation t1 none o1 = calculateSimulation t2 none o2) ∧
    (∀ (t1 t2 : Nat) (o1 o2 : FetchOutcome),
      calculateQuenching t1 none o1 = calculateQuenching t2 none o2) := by
  refine ⟨rfl, rfl, ?_, ?_⟩ <;> intro t1 t2 o1 o2 <;> rfl

/-- C6: a 2xx response whose decoded body has a truthy `success` flag and a
`null` `data` field makes `makeRequest` raise `"API returned null data"`
with no status code (and no other structured field), and every public
operation return the failure envelope with exactly that message. -/
theorem null_data_rejected (timeout : Nat) (r : HttpResponse) (result : Json)
    (hok : responseOk r.status = true) (hbody : r.body = Except.ok result)
    (hsucc : jsonFieldTruthy result "success" = true)
    (hdata : result.getField "data" = some Json.null) :
    makeRequestRun timeout (.response r) =
      Except.error (JsValue.eisError
        { message := "API returned null data", code := none, timestamp := none,
          path := none, statusCode := none }) ∧
    getApiStatus timeout (.response r) =
      ⟨EnvData.null, false, some "API returned null data"⟩ ∧
    getAgingTable timeout (.response r) =
      ⟨EnvData.null, false, some "API returned null data"⟩ ∧
    (∀ inp : Option Json, jsOptTruthy inp = true →
      calculateSimulation timeout inp (.response r) =
        ⟨EnvData.null, false, some "API returned null data"⟩ ∧
      calculateQuenching timeout inp (.response r) =
        ⟨EnvData.null, false, some "API returned null data"⟩) := by
  have h1 : makeRequestTry r = Except.error (JsValue.eisError
      { message := "API returned null data" }) := by
    simp [makeRequestTry, hok, hbody, hsucc, hdata]
  have h2 : makeRequestRun timeout (.response r) = Except.error (JsValue.eisError
      { message := "API returned null data" }) := by
    simp [makeRequestRun, h1, classifyCaught]
  refine ⟨h2, ?_, ?_, ?_⟩
  · simp [getApiStatus, wrapResult, h2, jsErrMessage]
  · simp [getAgingTable, wrapResult, h2, jsErrMessage]
  · intro inp hinp
    constructor <;> simp [calculateSimulation, calculateQuenching, hinp,
      wrapResult, h2, jsErrMessage]

/-- Witness for C6: a concrete `{success: true, data: null, error: null}`
body yields the null-data failure envelope. -/
theorem null_data_rejected_witness :
    makeRequestRun 30000 (.response
      ⟨200, "OK", some "application/json",
       Except.ok (Json.obj [("success", Json.bool true), ("data", Json.null),
                            ("error", Json.null)])⟩) =
      Except.error (JsValue.eisError
        { message := "API returned null data", code := none, timestamp := none,
          path := none, statusCode := none }) ∧
    getApiStatus 30000 (.response
      ⟨200, "OK", some "application/json",
       Except.ok (Json.obj [("success", Json.bool true), ("data", Json.null),
                            ("error", Json.null)])⟩) =
      ⟨EnvData.null, false, some "API returned null data"⟩ := by
  obtain ⟨h1, h2, -, -⟩ := null_data_rejected 30000
    ⟨200, "OK", some "application/json",
     Except.ok (Json.obj [("success", Json.bool true), ("data", Json.null),
                          ("error", Json.null)])⟩
    (Json.obj [("success", Json.bool true), ("data", Json.null),
               ("error", Json.null)])
    (by decide) rfl rfl rfl
  exact ⟨h1, h2⟩

/-- C7: pre-response failure classification. A transport failure — `fetch`
rejecting with a `TypeError` whose message contains `"fetch"`, as the fetch
implementations produce — is raised as exactly
`"Network error: Unable to connect to API"` with no status code; the armed
timer firing — `fetch` rejecting with an `AbortError` — is raised as exactly
`"Request timeout after {timeout}ms"` with the configured timeout
substituted, with no status code. -/
theorem pre_response_classification (timeout : Nat) (netMsg abortMsg : String)
    (hfetch : strContains netMsg "fetch" = true) :
    makeRequestRun timeout (.throws (.typeError netMsg)) =
      Except.error (JsValue.eisError
        { message := "Network error: Unable to connect to API", code := none,
          timestamp := none, path := none, statusCode := none }) ∧
    makeRequestRun timeout (.throws (.error "AbortError" abortMsg)) =
      Except.error (JsValue.eisError
        { message := "Request timeout after " ++ toString timeout ++ "ms",
          code := none, timestamp := none, path := none, statusCode := none }) := by
  constructor
  · simp [makeRequestRun, classifyCaught, hfetch]
  · simp [makeRequestRun, classifyCaught]

/-- Witness for C7: the Node `fetch` rejection message and a standard abort
message, with the default 30000 ms timeout. -/
theorem pre_response_classification_witness :
    makeRequestRun 30000 (.throws (.typeError "fetch failed")) =
      Except.error (JsValue.eisError
        { message := "Network error: Unable to connect to API", code := none,
          timestamp := none, path := none, statusCode := none }) ∧
    makeRequestRun 30000 (.throws (.error "AbortError" "This operation was aborted")) =
      Except.error (JsValue.eisError
        { message := "Request timeout after 30000ms", code := none,
          timestamp := none, path := none, statusCode := none }) :=
  pre_response_classification 30000 "fetch failed" "This operation was aborted"
    (by decide)

/-- C8: construction raises exactly when `customerName` or `apiSecret` is
absent or empty, and a successful construction resolves `baseUrl` to the
fixed production default and `timeout` to 30000 ms when they are not
supplied (and to the supplied values otherwise); the resolved configuration
is a pure value that no operation mutates. -/
theorem construction_validates (config : EisClientConfig) :
    ((∃ msg, makeClient config = Except.error msg) ↔
      (strOptTruthy config.customerName = false ∨
       strOptTruthy config.apiSecret = false)) ∧
    ∀ i, makeClient config = Except.ok i →
      (config.baseUrl = none → i.baseUrl = "https://api.extrusionsim.com") ∧
      (config.timeout = none → i.timeout = 30000) ∧
      i.baseUrl = config.baseUrl.getD "https://api.extrusionsim.com" ∧
      i.timeout = config.timeout.getD 30000 := by
  unfold makeClient
  rcases hc : strOptTruthy config.customerName <;>
    rcases hs : strOptTruthy config.apiSecret <;>
      simp_all

/-- Witness for C8: a valid config constructs successfully and resolves both
defaults. -/
theorem construction_validates_witness :
    makeClient { customerName := some "acme", apiSecret := some "s" } =
      Except.ok { customerName := "acme", apiSecret := "s",
                  baseUrl := "https://api.extrusionsim.com", timeout := 30000 } ∧
    InternalConfig.baseUrl
        { customerName := "acme", apiSecret := "s",
          baseUrl := "https://api.extrusionsim.com", timeout := 30000 } =
      "https://api.extrusionsim.com" ∧
    InternalConfig.timeout
        { customerName := "acme", apiSecret := "s",
          baseUrl := "https://api.extrusionsim.com", timeout := 30000 } = 30000 :=
  ⟨rfl,
   ((construction_validates
      { customerName := some "acme", apiSecret := some "s" }).2 _ rfl).1 rfl,
   (((construction_validates
      { customerName := some "acme", apiSecret := some "s" }).2 _ rfl).2.1) rfl⟩

/-- C9: for every successfully constructed client, `getConfig` reports
`apiSecret = "[REDACTED]"` whatever the real secret is, and reports the
resolved `baseUrl`/`timeout`; two clients whose configs differ only in
`apiSecret` produce identical `getConfig` output. -/
theorem getConfig_redacts (c1 c2 : EisClientConfig) (i1 i2 : InternalConfig)
    (h1 : makeClient c1 = Except.ok i1) (h2 : makeClient c2 = Except.ok i2)
    (hn : c1.customerName = c2.customerName) (hb : c1.baseUrl = c2.baseUrl)
    (ht : c1.timeout = c2.timeout) :
    (getConfig i1).apiSecret = "[REDACTED]" ∧
    (c1.baseUrl = none → (getConfig i1).baseUrl = "https://api.extrusionsim.com") ∧
    (c1.timeout = none → (getConfig i1).timeout = 30000) ∧
    getConfig i1 = getConfig i2 := by
  rw [makeClient_ok_eq h1, makeClient_ok_eq h2]
  refine ⟨rfl, ?_, ?_, ?_⟩
  · intro hb1; simp [getConfig, hb1]
  · intro ht1; simp [getConfig, ht1]
  · simp [getConfig, hn, hb, ht]

/-- Witness for C9: two clients differing only in the secret give the same
redacted view. -/
theorem getConfig_redacts_witness :
    (getConfig { customerName := "acme", apiSecret := "secret-one",
                 baseUrl := "https://api.extrusionsim.com", timeout := 30000 }).apiSecret =
      "[REDACTED]" ∧
    getConfig { customerName := "acme", apiSecret := "secret-one",
                baseUrl := "https://api.extrusionsim.com", timeout := 30000 } =
      getConfig { customerName := "acme", apiSecret := "secret-two",
                  baseUrl := "https://api.extrusionsim.com", timeout := 30000 } :=
  have h := getConfig_redacts
    { customerName := some "acme", apiSecret := some "secret-one" }
    { customerName := some "acme", apiSecret := some "secret-two" }
    _ _ rfl rfl rfl rfl rfl
  ⟨h.1, h.2.2.2⟩

/-- C10: every failure exit of `makeRequest` raises an `EisApiError` (any
non-`EisApiError` thrown value is re-wrapped by the catch clause: a generic
`Error` with its own message, a non-`Error` value with
`"Unknown error occurred"`), so the public fallback branch producing
`"Unknown error"` for non-`Error` caught values is unreachable and the
envelope message always equals the classified message. -/
theorem executor_failures_are_eis_errors (timeout : Nat) (outcome : FetchOutcome) :
    (∀ v, makeRequestRun timeout outcome = Except.error v →
      ∃ e, v = JsValue.eisError e ∧ jsErrMessage v = e.message ∧
        getApiStatus timeout outcome = ⟨EnvData.null, false, some e.message⟩) ∧
    (∀ name msg, name ≠ "AbortError" →
      classifyCaught timeout (JsValue.error name msg) = { message := msg }) ∧
    (∀ msg, strContains msg "fetch" = false →
      classifyCaught timeout (JsValue.typeError msg) = { message := msg }) ∧
    classifyCaught timeout JsValue.nonError = { message := "Unknown error occurred" } := by
  refine ⟨?_, ?_, ?_, rfl⟩
  · intro v hv
    have hex : ∃ e, v = JsValue.eisError e := by
      cases outcome with
      | throws err =>
          simp [makeRequestRun] at hv
          exact ⟨_, hv.symm⟩
      | response r =>
          simp only [makeRequestRun] at hv
          rcases h : makeRequestTry r with thrown | d <;> rw [h] at hv
          · simp at hv
            exact ⟨_, hv.symm⟩
          · cases hv
    rcases hex with ⟨e, rfl⟩
    exact ⟨e, rfl, rfl, by simp [getApiStatus, hv, wrapResult, jsErrMessage]⟩
  · intro name msg hname
    simp [classifyCaught, hname]
  · intro msg hmsg
    simp [classifyCaught, hmsg]

/-- Witness for C10: on a thrown non-`Error` value the classified message is
`"Unknown error occurred"` and the envelope carries it; a plain thrown
`Error` is re-wrapped with its own message. -/
theorem executor_failures_are_eis_errors_witness :
    getApiStatus 1 (.throws (.error "RangeError" "boom")) =
      ⟨EnvData.null, false, some "boom"⟩ ∧
    classifyCaught 1 (JsValue.error "RangeError" "boom") = { message := "boom" } ∧
    classifyCaught 1 JsValue.nonError = { message := "Unknown error occurred" } := by
  obtain ⟨e, he, hm, hs⟩ :=
    (executor_failures_are_eis_errors 1 (.throws (.error "RangeError" "boom"))).1
      (JsValue.eisError { message := "boom" }) rfl
  injection he with he2
  refine ⟨?_, ?_, (executor_failures_are_eis_errors 1 (.throws .nonError)).2.2.2⟩
  · rw [hs, ← he2]
  · exact (executor_failures_are_eis_errors 1
      (.throws (.error "RangeError" "boom"))).2.1 "RangeError" "boom" (by decide)
